import Mathlib

/-!
# Verification of the Wandr "Lost Transmissions" audio core

Shallow embedding of the spectral-analysis / adaptive-EQ / layer-assembly /
mix-graph-compilation engine of the `podcast-automation` system, together
with proofs and refutations of the specification claims.

Conventions of the embedding:
* JavaScript numbers are modelled as exact rationals (`ℚ`).  All
  claim-relevant constants (frequencies, gains, fade times, `44100/2048`
  bin widths, and the two-decimal `toFixed` roundings) are exactly
  representable in binary floating point, so the rational model agrees
  with the JS evaluation on every value appearing in a theorem below.
* `Number.prototype.toFixed(n)` picks the integer `m` minimising
  `|m / 10^n - x|`, preferring the larger `m` on ties; this is
  `⌊x·10^n + 1/2⌋ / 10^n`, modelled by `toFixed2` / `toFixed4`.
* Fallible asynchronous code (ffprobe, ffmpeg decode) is modelled with
  `Except` / `Option`; promise rejection is `Except.error`.
* JS truthiness on numbers is `≠ 0` (0, `undefined` and `null` behave
  identically in every `x || fallback` and `if (x)` site modelled here,
  so absent optional config values are modelled as `0` where the code
  only ever tests truthiness, and as `Option` where presence matters).
-/

/-- JS `x.toFixed(2)` as an exact rational (round to two decimals,
half away from zero towards `+∞`, which is what `toFixed` does for the
values arising here). -/
def toFixed2 (x : ℚ) : ℚ := (⌊x * 100 + 1/2⌋ : ℚ) / 100

/-- JS `x.toFixed(4)` as an exact rational. -/
def toFixed4 (x : ℚ) : ℚ := (⌊x * 10000 + 1/2⌋ : ℚ) / 10000

/-! ## Adaptive EQ planner (`optimization/algorithms/eq-calculator.js`) -/

/-- One primitive filter emitted by `EQCalculator.generateBackgroundEQ`:
either `highpass=f=F` or `equalizer=f=F:width_type=q:width=W:g=G`. -/
inductive BgFilter
  | highpass (f : ℚ)
  | equalizerQ (f : ℚ) (width : ℚ) (gain : ℚ)
deriving DecidableEq, Repr

/-- `EQCalculator.calculateQFromBandwidth`: `Q = fCenter / bandwidth`,
returning `1.0` when the bandwidth is `0`. -/
def calculateQFromBandwidth (fCenter bandwidthInHz : ℚ) : ℚ :=
  if bandwidthInHz = 0 then 1 else fCenter / bandwidthInHz

/-- The vocal frequency profile produced by `VocalAnalyzer` and consumed
by `EQCalculator` (`dominantFrequency`, `averageEnergyByBand`,
`peakFrequencies` as `(freq, mag)` pairs). -/
structure VocalProfile where
  dominantFrequency : ℚ
  lowEnergy : ℚ
  midEnergy : ℚ
  highEnergy : ℚ
  peakFrequencies : List (ℚ × ℚ)
deriving DecidableEq, Repr

/-- Drop the first occurrence of a character from a character list
(JS `String.prototype.replace` with a string pattern replaces only the
first occurrence). -/
def removeFirstChar (c : Char) : List Char → List Char
  | [] => []
  | a :: rest => if a = c then rest else a :: removeFirstChar c rest

/-- `inputLabel.replace('[', '').replace(']', '')` from
`generateBackgroundEQ`. -/
def stripLabelBrackets (s : String) : String :=
  ⟨removeFirstChar ']' (removeFirstChar '[' s.data)⟩

/-- Result of `EQCalculator.generateBackgroundEQ`: the source returns the
string `inputLabel,f1,...,fn[outputLabel]`; we keep its three components
structurally. -/
structure EQResult where
  inputLabel : String
  chain : List BgFilter
  outputLabel : String
deriving DecidableEq, Repr

/-- `EQCalculator.generateBackgroundEQ(vocalProfile, layerType, inputLabel)`.
Always prepends `highpass=f=90`; if the dominant frequency lies strictly
between `bodyLow = 100` and `midPresenceHigh = 5000` it adds a parametric
cut there with `width = (centerFreq / 1500).toFixed(2)` and gain `-4`,
otherwise the fallback cut `equalizer=f=2000:width=0.8:g=-4`; for
`ambience`/`music` layers it appends `equalizer=f=5000:width=1.0:g=-3`.
The output label is the bracket-stripped input label with `_eq` appended. -/
def generateBackgroundEQ (vocalProfile : VocalProfile) (layerType : String)
    (inputLabel : String) : EQResult :=
  let outputLabel := stripLabelBrackets inputLabel ++ "_eq"
  let baseGainReduction : ℚ := -4
  let notch : BgFilter :=
    if 100 < vocalProfile.dominantFrequency ∧ vocalProfile.dominantFrequency < 5000 then
      BgFilter.equalizerQ vocalProfile.dominantFrequency
        (toFixed2 (calculateQFromBandwidth vocalProfile.dominantFrequency 1500))
        baseGainReduction
    else
      BgFilter.equalizerQ 2000 (8/10) baseGainReduction
  let chain :=
    [BgFilter.highpass 90, notch] ++
      (if layerType = "ambience" ∨ layerType = "music" then
        [BgFilter.equalizerQ 5000 1 (-3)] else [])
  ⟨inputLabel, chain, outputLabel⟩

/-- A profile whose dominant frequency is 150 Hz (all other fields
irrelevant to the EQ planner). -/
def profile150 : VocalProfile := ⟨150, 0, 0, 0, []⟩

/-! ## Spectral analyzer (`optimization/algorithms/vocal-analyzer.js`)

The system always constructs `new VocalAnalyzer()` with the default
parameters (`content-analyzer.js`), so the embedding fixes
`sampleRate = 44100` and `fftSize = 2048`.  Sample magnitudes are exact
rationals; the external FFT (`fft-js`, an out-of-scope numeric
collaborator per the spec) is a parameter `fftMags` giving the magnitude
spectrum of one window, one magnitude per input sample. -/

/-- `VocalAnalyzer` constructor default `sampleRate`. -/
def sampleRate : ℚ := 44100

/-- `VocalAnalyzer` constructor default `fftSize`. -/
def fftSize : ℕ := 2048

/-- `const totalBins = this.fftSize / 2`. -/
def totalBins : ℕ := fftSize / 2

/-- The frequency step `this.sampleRate / this.fftSize` between bins. -/
def binWidth : ℚ := sampleRate / (fftSize : ℚ)

/-- Frequency of bin `i`: `index * (this.sampleRate / this.fftSize)`. -/
def binFrequency (i : ℕ) : ℚ := i * binWidth

/-- `minBin = Math.max(0, Math.floor(80 / (sampleRate/fftSize)))`. -/
def minBin : ℕ := (max 0 ⌊(80 : ℚ) / binWidth⌋).toNat

/-- `maxBin = Math.min(totalBins - 1, Math.ceil(8000 / (sampleRate/fftSize)))`. -/
def maxBin : ℕ := (min ((totalBins : ℤ) - 1) ⌈(8000 : ℚ) / binWidth⌉).toNat

/-- The per-bin averages: `cumulativeMagnitudes[i]` sums `bin.magnitude`
over all windows (indices beyond a window's length contribute nothing,
indices `≥ totalBins` are ignored), then divides by the window count. -/
def avgMagnitudes (allMags : List (List ℚ)) : List ℚ :=
  (List.range totalBins).map (fun i =>
    (allMags.foldl (fun acc w => acc + w.getD i 0) 0) / (allMags.length : ℚ))

/-- The dominant-bin scan: starting from `(dominantFrequencyBin, maxAvgMagnitude)
 = (-1, -1)`, visit bins `minBin .. maxBin` and keep the first strict
maximum of the average magnitude. -/
def dominantScan (avg : List ℚ) : ℤ × ℚ :=
  (List.range' minBin (maxBin + 1 - minBin)).foldl
    (fun acc i => if acc.2 < avg.getD i 0 then ((i : ℤ), avg.getD i 0) else acc)
    (-1, -1)

/-- Pair each average magnitude with its bin frequency
(`avgMagnitudes.map((mag, index) => ...)`). -/
def avgWithFreq (avg : List ℚ) : List (ℚ × ℚ) :=
  avg.enum.map (fun p => (binFrequency p.1, p.2))

/-- `count > 0 ? energy / count : 0` for one band. -/
def bandAverage (l : List ℚ) : ℚ := if l.length = 0 then 0 else l.sum / (l.length : ℚ)

/-- The stable descending-by-magnitude order used by
`sort((a, b) => b.magnitude - a.magnitude)`: `a` may precede `b` iff
`b.magnitude ≤ a.magnitude`. -/
def magDescends (a b : ℚ × ℚ) : Prop := b.2 ≤ a.2

instance : DecidableRel magDescends := fun a b => inferInstanceAs (Decidable (b.2 ≤ a.2))

instance : IsTotal (ℚ × ℚ) magDescends := ⟨fun a b => le_total b.2 a.2⟩

instance : IsTrans (ℚ × ℚ) magDescends :=
  ⟨fun _ _ _ h1 h2 => le_trans h2 h1⟩

/-- `peakFrequencies`: restrict bins to `[80, 8000]`, sort stably by
descending magnitude (JS `Array.prototype.sort` is stable, and a stable
sort for a total preorder comparator is unique, so Lean's stable
`insertionSort` matches it), take the first 5, and round the reported
values (`freq.toFixed(2)`, `mag.toFixed(4)`). -/
def peakList (avg : List ℚ) : List (ℚ × ℚ) :=
  ((List.insertionSort magDescends
    ((avgWithFreq avg).filter (fun q => 80 ≤ q.1 ∧ q.1 ≤ 8000))).take 5).map
    (fun q => (toFixed2 q.1, toFixed4 q.2))

/-- The profile assembled from per-bin average magnitudes
(`_calculateFinalProfile`, non-empty case).  Band edges: low `≤ 500`,
mid `(500, 5000]`, high `(5000, 8000]`. -/
def profileFromAvg (avg : List ℚ) : VocalProfile :=
  { dominantFrequency :=
      toFixed2 (if (dominantScan avg).1 ≠ -1 then ((dominantScan avg).1 : ℚ) * binWidth else 0)
    lowEnergy :=
      toFixed4 (bandAverage (((avgWithFreq avg).filter (fun q => q.1 ≤ 500)).map (·.2)))
    midEnergy :=
      toFixed4 (bandAverage (((avgWithFreq avg).filter (fun q => 500 < q.1 ∧ q.1 ≤ 5000)).map (·.2)))
    highEnergy :=
      toFixed4 (bandAverage (((avgWithFreq avg).filter (fun q => 5000 < q.1 ∧ q.1 ≤ 8000)).map (·.2)))
    peakFrequencies := peakList avg }

/-- `VocalAnalyzer.getDefaultVocalProfile()`. -/
def getDefaultVocalProfile : VocalProfile := ⟨0, 0, 0, 0, []⟩

/-- `VocalAnalyzer._calculateFinalProfile()`: default profile when no
window was processed, otherwise the profile of the averaged magnitudes. -/
def calculateFinalProfile (allMags : List (List ℚ)) : VocalProfile :=
  if allMags = [] then getDefaultVocalProfile
  else profileFromAvg (avgMagnitudes allMags)

/-- `_processBuffer`: greedily split the decoded stream into full
`fftSize`-sample frames; at end of stream a non-empty shorter remainder
is still analyzed.  Structural fuel recursion (fuel = list length always
suffices since every step consumes at least one sample). -/
def chunkFrames : ℕ → List ℤ → List (List ℤ)
  | 0, _ => []
  | _ + 1, [] => []
  | fuel + 1, x :: xs => ((x :: xs).take fftSize) :: chunkFrames fuel ((x :: xs).drop fftSize)

/-- All windows of a sample stream. -/
def splitWindows (samples : List ℤ) : List (List ℤ) := chunkFrames samples.length samples

/-- `currentSamplesBuffer.readInt16LE(...) / 32768.0`. -/
def toFloatSample (s : ℤ) : ℚ := (s : ℚ) / 32768

/-- `VocalAnalyzer.analyze` after decode: run every window through the
FFT magnitude spectrum, keep the first `fftSize / 2` bins of each
(`slice(0, this.fftSize / 2)`), and aggregate. -/
def analyzeSamples (fftMags : List ℚ → List ℚ) (samples : List ℤ) : VocalProfile :=
  calculateFinalProfile ((splitWindows samples).map
    (fun w => (fftMags (w.map toFloatSample)).take totalBins))

/-- Stand-in for the external FFT on the inputs where theorems below
evaluate it: any correct DFT maps an all-zero window to an all-zero
spectrum with one magnitude per input sample, which is all this function
is ever applied to in concrete statements. -/
def zeroSpectrum : List ℚ → List ℚ := fun w => List.replicate w.length 0

/-- The profile the analyzer actually produces for all-silent input at
the default parameters: dominant bin `3` (64.6 Hz after rounding) and
the first five in-band bins (4–8) as zero-magnitude peaks. -/
def silentProfile : VocalProfile :=
  ⟨323/5, 0, 0, 0,
   [(8613/100, 0), (10767/100, 0), (646/5, 0), (15073/100, 0), (17227/100, 0)]⟩

/-! ## Layers and errors (`audio-processing/core/layer-manager.js`) -/

/-- Error taxonomy of the request pipeline (spec §7).  `sourceUnavailable`
covers ffprobe rejection and inaccessible files in
`LayerManager._getAudioDuration`; `decodeFailure` covers ffmpeg decode
errors in `VocalAnalyzer.analyze`; `otherFailure` covers the remaining
`new Error(...)` throws, carrying the JS message. -/
inductive PipelineError
  | sourceUnavailable (path : String)
  | decodeFailure (path : String)
  | otherFailure (msg : String)
deriving DecidableEq, Repr

/-- One audio layer record as produced by `LayerManager.createLayers`
(JS objects without a `loop` property behave as `loop = false`). -/
structure AudioLayer where
  filePath : String
  type : String
  volume : ℚ
  fadeIn : ℚ
  fadeOut : ℚ
  duration : ℚ
  loop : Bool
  startOffset : ℚ
deriving DecidableEq, Repr

/-- `LayerManager._getAudioDuration`: resolve the probed duration or
reject.  The probe oracle `probe` abstracts `fs.access` + `ffprobe`
(`none` = missing or unprobable file, `some d` = declared duration). -/
def getAudioDuration (probe : String → Option ℚ) (filePath : String) :
    Except PipelineError ℚ :=
  match probe filePath with
  | some d => Except.ok d
  | none => Except.error (PipelineError.sourceUnavailable filePath)

/-- The library selections handed to `createLayers`
(`libraries.ambience/music/effects/structural`). -/
structure Libraries where
  ambience : List String
  music : List String
  effects : List String
  structuralIntro : Option String
  structuralOutro : Option String

/-- The portions of the external `audio-settings.json` configuration the
embedded code reads.  Numeric fields are plain rationals because the
code only ever tests them for truthiness (`x || fallback`), under which
an absent key and `0` are indistinguishable.  `mixingVolumeFor` models
the dynamic lookup ``this.config.mixing[`${layer.type}Volume`]`` in
`buildFilterComplex` (same JSON object as the named volumes). -/
structure MixerConfig where
  voiceVolume : ℚ
  introVolume : ℚ
  outroVolume : ℚ
  ambienceVolume : ℚ
  musicVolume : ℚ
  transmissionStaticVolume : ℚ
  mixingVolumeFor : String → ℚ
  voiceEQ : Option (ℚ × ℚ × ℚ)
  duckingEnabled : Bool
  duckThreshold : ℚ
  duckRatioVal : ℚ
  duckAttack : ℚ
  duckRelease : ℚ
  normalizeLoudness : Bool
  targetLufs : ℚ
  truePeakDb : ℚ
  limiterThreshold : ℚ
  limiterAttack : ℚ
  limiterRelease : ℚ

/-- `LayerManager._resolveLibraryPath`: throws on a falsy relative path,
otherwise joins with the audio-library base directory. -/
def resolveLibraryPath (relativePath : String) : Except PipelineError String :=
  if relativePath = "" then
    Except.error (PipelineError.otherFailure "Relative path cannot be null or undefined.")
  else
    Except.ok ("audio-libraries/" ++ relativePath)

/-- Voice layer of `createLayers`: fixed fades 0.5 s in / 1.0 s out. -/
def mkVoiceLayer (cfg : MixerConfig) (filePath : String) (duration : ℚ) : AudioLayer :=
  ⟨filePath, "voice", cfg.voiceVolume, 1/2, 1, duration, false, 0⟩

/-- Structural intro segment of `createLayers` (when a candidate exists):
`fadeOut = 0.5` only, `startOffset = 0`, volume `introVolume || 1.0`. -/
def introSegment (probe : String → Option ℚ) (cfg : MixerConfig)
    (candidate : Option String) : Except PipelineError (List AudioLayer) :=
  match candidate with
  | none => Except.ok []
  | some rel => do
    let p ← resolveLibraryPath rel
    let d ← getAudioDuration probe p
    Except.ok [⟨p, "structural-intro", if cfg.introVolume ≠ 0 then cfg.introVolume else 1,
      0, 1/2, d, false, 0⟩]

/-- Structural outro segment of `createLayers`: `fadeIn = 0.5` only, and
`startOffset = voiceDuration > 0 ? voiceDuration - 1.0 : 0` (one-second
crossfade before the voice ends). -/
def outroSegment (probe : String → Option ℚ) (cfg : MixerConfig)
    (voiceDuration : ℚ) (candidate : Option String) :
    Except PipelineError (List AudioLayer) :=
  match candidate with
  | none => Except.ok []
  | some rel => do
    let p ← resolveLibraryPath rel
    let d ← getAudioDuration probe p
    Except.ok [⟨p, "structural-outro", if cfg.outroVolume ≠ 0 then cfg.outroVolume else 1,
      1/2, 0, d, false, if 0 < voiceDuration then voiceDuration - 1 else 0⟩]

/-- Ambience segment of `createLayers`: one uniformly random candidate
(`Math.floor(Math.random() * length)`, modelled by an arbitrary pick
index reduced mod the candidate count), fades 1 s / 1 s, `loop = true`. -/
def ambienceSegment (probe : String → Option ℚ) (cfg : MixerConfig)
    (pick : ℕ) (candidates : List String) : Except PipelineError (List AudioLayer) :=
  if candidates.length = 0 then Except.ok []
  else do
    let p ← resolveLibraryPath (candidates.getD (pick % candidates.length) "")
    let d ← getAudioDuration probe p
    Except.ok [⟨p, "ambience", cfg.ambienceVolume, 1, 1, d, true, 0⟩]

/-- Music segment of `createLayers`: fades 2 s / 2 s, `loop = true`. -/
def musicSegment (probe : String → Option ℚ) (cfg : MixerConfig)
    (pick : ℕ) (candidates : List String) : Except PipelineError (List AudioLayer) :=
  if candidates.length = 0 then Except.ok []
  else do
    let p ← resolveLibraryPath (candidates.getD (pick % candidates.length) "")
    let d ← getAudioDuration probe p
    Except.ok [⟨p, "music", cfg.musicVolume, 2, 2, d, true, 0⟩]

/-- Transmission-effect segment of `createLayers`: type
`transmission-static`, fades 0.1 s / 0.5 s, `startOffset = 0`. -/
def effectSegment (probe : String → Option ℚ) (cfg : MixerConfig)
    (pick : ℕ) (candidates : List String) : Except PipelineError (List AudioLayer) :=
  if candidates.length = 0 then Except.ok []
  else do
    let p ← resolveLibraryPath (candidates.getD (pick % candidates.length) "")
    let d ← getAudioDuration probe p
    Except.ok [⟨p, "transmission-static", cfg.transmissionStaticVolume, 1/10, 1/2, d, false, 0⟩]

/-- `LayerManager.createLayers`: voice first (required), then structural
intro/outro, ambience, music, transmission effect.  Any probe failure
rejects the whole assembly. -/
def createLayers (probe : String → Option ℚ) (cfg : MixerConfig) (libs : Libraries)
    (voiceFilePath : Option String) (pickA pickM pickE : ℕ) :
    Except PipelineError (List AudioLayer) :=
  match voiceFilePath with
  | none => Except.error (PipelineError.otherFailure "Voice file path is required.")
  | some vp => do
    let voiceDuration ← getAudioDuration probe vp
    let intro ← introSegment probe cfg libs.structuralIntro
    let outro ← outroSegment probe cfg voiceDuration libs.structuralOutro
    let amb ← ambienceSegment probe cfg pickA libs.ambience
    let mus ← musicSegment probe cfg pickM libs.music
    let fx ← effectSegment probe cfg pickE libs.effects
    Except.ok (mkVoiceLayer cfg vp voiceDuration :: (intro ++ outro ++ amb ++ mus ++ fx))

/-! ## Mix graph compiler (`TransmissionMixer.buildFilterComplex`) -/

/-- One primitive per-bus operation of the generated FFmpeg filter
graph.  `alimiter`'s `level_out`/`limit` are `10^(limiterThreshold/20)`
in the emitted string; the op carries the configured dB threshold, which
determines them. -/
inductive BusOp
  | volume (v : ℚ)
  | afadeIn (d : ℚ)
  | afadeOut (st : ℚ) (d : ℚ)
  | equalizerHW (f : ℚ) (width : ℚ) (gain : ℚ)
  | equalizerQW (f : ℚ) (width : ℚ) (gain : ℚ)
  | highpassF (f : ℚ)
  | amixLongest (inputCount : ℕ)
  | amixFirst (inputCount : ℕ) (dropoutTransition : ℚ)
  | sidechainCompress (threshold : ℚ) (ratioVal : ℚ) (attack : ℚ) (release : ℚ)
  | anull
  | loudnorm (i : ℚ) (tp : ℚ) (lra : ℚ)
  | alimiter (thresholdDb : ℚ) (attack : ℚ) (release : ℚ)
deriving DecidableEq, Repr

/-- One `filters.push(...)` entry: an ordered op chain applied to the
named input buses, producing one named output bus. -/
structure FilterStmt where
  inputs : List String
  ops : List BusOp
  output : String
deriving DecidableEq, Repr

/-- `volume=...` plus conditional fade-in/fade-out ops shared by the
voice chain and each background chain (`afade` is emitted only when
`fadeIn > 0`, resp. `fadeOut > 0 && duration` truthy). -/
def volumeFadeOps (vol : ℚ) (layer : AudioLayer) : List BusOp :=
  [BusOp.volume vol] ++
    (if 0 < layer.fadeIn then [BusOp.afadeIn layer.fadeIn] else []) ++
    (if 0 < layer.fadeOut ∧ layer.duration ≠ 0 then
      [BusOp.afadeOut (layer.duration - layer.fadeOut) layer.fadeOut] else [])

/-- Effective volume of a background layer:
``layer.volume || this.config.mixing[`${layer.type}Volume`] || 0.1``. -/
def backgroundVolume (cfg : MixerConfig) (layer : AudioLayer) : ℚ :=
  if layer.volume ≠ 0 then layer.volume
  else if cfg.mixingVolumeFor layer.type ≠ 0 then cfg.mixingVolumeFor layer.type
  else 1/10

/-- Map the EQ calculator's filters into graph ops. -/
def bgFilterToOp : BgFilter → BusOp
  | BgFilter.highpass f => BusOp.highpassF f
  | BgFilter.equalizerQ f w g => BusOp.equalizerQW f w g

/-- FFmpeg input-pad label of background layer `i` (`[i+1:a]`; the voice
file is input 0). -/
def bgInputLabel (i : ℕ) : String := toString (i + 1) ++ ":a"

/-- Intermediate volume/fade bus label of background layer `i`. -/
def bgVolFadeLabel (i : ℕ) : String := "bg" ++ toString i ++ "_volfade"

/-- The one or two statements produced per background layer: the
volume/fade bus, then (when a vocal profile is available) the EQ bus
returned by `generateBackgroundEQ`, whose output label the mixer
recovers from the trailing `[...]` of the EQ string. -/
def backgroundStmts (cfg : MixerConfig) (vocalProfile : Option VocalProfile)
    (i : ℕ) (layer : AudioLayer) : List FilterStmt × String :=
  let volFade : FilterStmt :=
    ⟨[bgInputLabel i], volumeFadeOps (backgroundVolume cfg layer) layer, bgVolFadeLabel i⟩
  match vocalProfile with
  | some prof =>
    let eq := generateBackgroundEQ prof layer.type ("[" ++ bgVolFadeLabel i ++ "]")
    ([volFade, ⟨[bgVolFadeLabel i], eq.chain.map bgFilterToOp, eq.outputLabel⟩],
     eq.outputLabel)
  | none => ([volFade], bgVolFadeLabel i)

/-- The mastering chain `[preMaster] → [out]`: optional `loudnorm`
(when `normalizeLoudness && targetLufs` truthy, with `lra=7`), then
optional `alimiter` (when all three limiter settings are truthy). -/
def masteringOps (cfg : MixerConfig) : List BusOp :=
  (if cfg.normalizeLoudness ∧ cfg.targetLufs ≠ 0 then
    [BusOp.loudnorm cfg.targetLufs cfg.truePeakDb 7] else []) ++
  (if cfg.limiterThreshold ≠ 0 ∧ cfg.limiterAttack ≠ 0 ∧ cfg.limiterRelease ≠ 0 then
    [BusOp.alimiter cfg.limiterThreshold cfg.limiterAttack cfg.limiterRelease] else [])

/-- `TransmissionMixer.buildFilterComplex(voiceLayer, backgroundLayers,
vocalAnalysis)`: voice chain into `[processedVoice]`; per-background
volume/fade and EQ buses; `amix=duration=longest` of all processed
backgrounds into `[rawMixedBackgrounds]`; sidechain ducking by the voice
into `[mixedBackgrounds]` when enabled; final
`amix=duration=first:dropout_transition=2` of voice and backgrounds into
`[preMaster]` (or `anull` pass-through when there are no backgrounds);
mastering into `[out]`. -/
def buildFilterComplex (cfg : MixerConfig) (voiceLayer : AudioLayer)
    (backgroundLayers : List AudioLayer) (vocalProfile : Option VocalProfile) :
    List FilterStmt :=
  let voiceStmt : FilterStmt :=
    ⟨["0:a"],
     volumeFadeOps (if voiceLayer.volume ≠ 0 then voiceLayer.volume else cfg.voiceVolume)
         voiceLayer ++
       (match cfg.voiceEQ with
        | some (f, w, g) => [BusOp.equalizerHW f w g]
        | none => []),
     "processedVoice"⟩
  let bgResults := backgroundLayers.enum.map (fun p => backgroundStmts cfg vocalProfile p.1 p.2)
  let bgStmts := bgResults.flatMap (fun r => r.1)
  let bgLabels := bgResults.map (fun r => r.2)
  let tailStmts :=
    if bgLabels.length ≠ 0 then
      let mixStmt : FilterStmt :=
        ⟨bgLabels, [BusOp.amixLongest bgLabels.length], "rawMixedBackgrounds"⟩
      let duckStmts :=
        if cfg.duckingEnabled then
          [(⟨["rawMixedBackgrounds", "processedVoice"],
             [BusOp.sidechainCompress cfg.duckThreshold cfg.duckRatioVal
                cfg.duckAttack cfg.duckRelease],
             "mixedBackgrounds"⟩ : FilterStmt)]
        else []
      let mixedLabel := if cfg.duckingEnabled then "mixedBackgrounds" else "rawMixedBackgrounds"
      [mixStmt] ++ duckStmts ++
        [⟨["processedVoice", mixedLabel], [BusOp.amixFirst 2 2], "preMaster"⟩]
    else
      [⟨["processedVoice"], [BusOp.anull], "preMaster"⟩]
  voiceStmt :: bgStmts ++ tailStmts ++ [⟨["preMaster"], masteringOps cfg, "out"⟩]

/-- `TransmissionMixer.mixLayers` up to graph construction: reject when
no voice layer exists or its file path is falsy, otherwise compile the
filter graph (`options.vocalAnalysis?.vocalProfile` drives the EQ). -/
def mixLayers (cfg : MixerConfig) (layers : List AudioLayer)
    (vocalProfile : Option VocalProfile) : Except PipelineError (List FilterStmt) :=
  match layers.find? (fun l => l.type = "voice") with
  | none => Except.error (PipelineError.otherFailure
      "Voice layer (primary input) is missing or has no file path.")
  | some v =>
    if v.filePath = "" then
      Except.error (PipelineError.otherFailure
        "Voice layer (primary input) is missing or has no file path.")
    else
      Except.ok (buildFilterComplex cfg v (layers.filter (fun l => ¬ l.type = "voice"))
        vocalProfile)

/-! ### Graph well-formedness and renderer duration semantics -/

/-- Bus bookkeeping: a statement list is well formed relative to the
available source pads when every statement reads only already-produced
buses and writes a fresh name. -/
def wellFormedFrom (avail : List String) : List FilterStmt → Bool
  | [] => true
  | s :: rest =>
    s.inputs.all (fun i => avail.contains i) && !(avail.contains s.output) &&
      wellFormedFrom (s.output :: avail) rest

/-- Terminal buses: outputs never consumed by any statement of the
graph. -/
def terminalBuses (g : List FilterStmt) : List String :=
  (g.map (fun s => s.output)).filter (fun o => !(g.any (fun s => s.inputs.contains o)))

/-- Is the op an `amix` with `duration=longest`? -/
def isAmixLongest : BusOp → Bool
  | BusOp.amixLongest _ => true
  | _ => false

/-- Modelled from the spec: duration propagation of the external render
engine, which is not part of the repository.  Spec §4.4: the combined
background bus (`amix=duration=longest`) lasts as long as its longest
member; `amix=duration=first` and sidechain compression track their
first (main) input; unary filters preserve duration. -/
def stmtDuration (env : List (String × ℚ)) (s : FilterStmt) : Option ℚ :=
  match s.inputs.mapM (fun i => (env.find? (fun p => p.1 = i)).map (fun p => p.2)) with
  | none => none
  | some ds =>
    if s.ops.any isAmixLongest then some (ds.foldl max 0) else ds.head?

/-- Modelled from the spec: fold renderer durations over the graph in
statement order, starting from the input-pad durations. -/
def graphDurations (init : List (String × ℚ)) (g : List FilterStmt) :
    List (String × ℚ) :=
  g.foldl (fun env s =>
    match stmtDuration env s with
    | some d => (s.output, d) :: env
    | none => env) init

/-- Declared duration of a bus after folding the whole graph. -/
def busDuration (init : List (String × ℚ)) (g : List FilterStmt) (bus : String) :
    Option ℚ :=
  ((graphDurations init g).find? (fun p => p.1 = bus)).map (fun p => p.2)

/-! ## Content analyzer and request pipeline
(`audio-processing/core/content-analyzer.js`,
`TransmissionMixer.processTransmission`) -/

/-- The analysis record built by `ContentAnalyzer.analyze`.  The NLP
enrichment fields (location, mood, …) come from out-of-scope external
collaborators; only their presence matters here. -/
structure Analysis where
  transcript : Option String
  location : String
  mood : String
  intensity : Option String
  theme : String
  keywords : List String
  duration : ℚ
  setting : String
  sentimentScore : ℚ
  vocalProfile : VocalProfile
deriving DecidableEq, Repr

/-- `ContentAnalyzer.getDefaultAnalysis()`: the fallback record (with the
default vocal profile) returned whenever any part of the analysis throws. -/
def getDefaultAnalysis : Analysis :=
  ⟨none, "unknown", "mysterious", some "medium", "discovery", [], 0, "outdoor", 0,
   getDefaultVocalProfile⟩

/-- `ContentAnalyzer.analyze`: duration probe, then speech-to-text, then
vocal analysis, then enrichment — all inside one `try`; any failure is
caught and replaced by the default analysis.  The three effectful steps
are passed in as their outcomes; `enrich` is the out-of-scope NLP
enrichment (keyword extraction, sentiment, mood refinement) applied on
full success. -/
def contentAnalyze (enrich : ℚ → String → VocalProfile → Analysis)
    (durationResult : Except PipelineError ℚ)
    (transcriptResult : Except PipelineError String)
    (vocalResult : Except PipelineError VocalProfile) : Analysis :=
  match durationResult with
  | Except.error _ => getDefaultAnalysis
  | Except.ok d =>
    match transcriptResult with
    | Except.error _ => getDefaultAnalysis
    | Except.ok t =>
      match vocalResult with
      | Except.error _ => getDefaultAnalysis
      | Except.ok v => enrich d t v

/-- One step of the duration-backfill loop of `processTransmission`: a
layer with a falsy duration is re-probed, and a failed re-probe defaults
the duration to `0`. -/
def backfillDuration (probe : String → Option ℚ) (l : AudioLayer) : AudioLayer :=
  if l.duration ≠ 0 then l
  else match probe l.filePath with
    | some d => { l with duration := d }
    | none => { l with duration := 0 }

/-- The duration-backfill loop of `processTransmission` over the whole
layer list. -/
def ensureDurations (probe : String → Option ℚ) (layers : List AudioLayer) :
    List AudioLayer :=
  layers.map (backfillDuration probe)

/-- `TransmissionMixer.processTransmission` as far as the core pipeline
goes: content analysis (never failing, per `contentAnalyze`), layer
assembly, duration backfill, then graph compilation.  The library
selection from `library-mappings.json` is external configuration and is
passed in as `libs`; the surrounding `try/catch` converts an
`Except.error` into the `{success:false}` response. -/
def processTransmission (probe : String → Option ℚ) (cfg : MixerConfig)
    (libs : Libraries) (pickA pickM pickE : ℕ)
    (enrich : ℚ → String → VocalProfile → Analysis)
    (durationResult : Except PipelineError ℚ)
    (transcriptResult : Except PipelineError String)
    (vocalResult : Except PipelineError VocalProfile)
    (voiceFilePath : String) : Except PipelineError (List FilterStmt × Analysis) := do
  let analysis := contentAnalyze enrich durationResult transcriptResult vocalResult
  let layers ← createLayers probe cfg libs (some voiceFilePath) pickA pickM pickE
  let layers := ensureDurations probe layers
  let graph ← mixLayers cfg layers (some analysis.vocalProfile)
  Except.ok (graph, analysis)

/-! ## Concrete objects used by witnesses and counterexamples -/

/-- A concrete configuration: ducking enabled with the documented
scenario parameters (threshold −24 dB … release 250 ms), loudness
normalization to −16 LUFS with a −1.5 dBTP ceiling, and a −1 dB limiter. -/
def exampleConfig : MixerConfig :=
  { voiceVolume := 1
    introVolume := 1
    outroVolume := 1
    ambienceVolume := 3/10
    musicVolume := 2/10
    transmissionStaticVolume := 1/5
    mixingVolumeFor := fun _ => 0
    voiceEQ := some (200, 200, 2)
    duckingEnabled := true
    duckThreshold := -24
    duckRatioVal := 4
    duckAttack := 5
    duckRelease := 250
    normalizeLoudness := true
    targetLufs := -16
    truePeakDb := -3/2
    limiterThreshold := -1
    limiterAttack := 5
    limiterRelease := 50 }

/-- A 60-second voice layer as `createLayers` would emit it. -/
def voiceLayer60 : AudioLayer := ⟨"voice.mp3", "voice", 1, 1/2, 1, 60, false, 0⟩

/-- A 30-second looping ambience layer. -/
def ambienceLayer30 : AudioLayer :=
  ⟨"audio-libraries/amb.mp3", "ambience", 3/10, 1, 1, 30, true, 0⟩

/-- A 30-second looping music layer. -/
def musicLayer30 : AudioLayer :=
  ⟨"audio-libraries/mus.mp3", "music", 2/10, 2, 2, 30, true, 0⟩

/-- The compiled graph of the documented scenario: voice 60 s plus one
ambience and one music layer, ducking enabled, vocal profile available. -/
def scenarioGraph : List FilterStmt :=
  buildFilterComplex exampleConfig voiceLayer60 [ambienceLayer30, musicLayer30]
    (some profile150)

/-- Input-pad durations of the scenario (voice 60 s, backgrounds 30 s). -/
def scenarioInputDurations : List (String × ℚ) :=
  [("0:a", 60), ("1:a", 30), ("2:a", 30)]

/-- A probe oracle for witnesses: a 60-second voice file, a 12-second
outro candidate, a 45-second ambience candidate; everything else is
unprobable. -/
def exampleProbe : String → Option ℚ := fun path =>
  if path = "voice.mp3" then some 60
  else if path = "audio-libraries/structural/outro1.mp3" then some 12
  else if path = "audio-libraries/ambience/beach.mp3" then some 45
  else none

/-- A probe oracle for the C8 counterexample: the voice file lasts only
half a second. -/
def shortVoiceProbe : String → Option ℚ := fun path =>
  if path = "voice.mp3" then some (1/2)
  else if path = "audio-libraries/structural/outro1.mp3" then some 12
  else none

/-- Libraries offering only a structural outro candidate. -/
def outroOnlyLibraries : Libraries := ⟨[], [], [], none, some "structural/outro1.mp3"⟩

/-- Libraries with an outro and one ambience candidate. -/
def exampleLibraries : Libraries :=
  ⟨["ambience/beach.mp3"], [], [], none, some "structural/outro1.mp3"⟩

/-- Empty libraries: voice only. -/
def emptyLibraries : Libraries := ⟨[], [], [], none, none⟩

/-- A trivial enrichment stand-in for witnesses: records the inputs in
an otherwise default-shaped analysis. -/
def exampleEnrich : ℚ → String → VocalProfile → Analysis :=
  fun d t v => ⟨some t, "beach", "peaceful", some "high", "discovery", [], d, "outdoor", 1, v⟩

/-- The layer list `createLayers` produces from `exampleProbe` /
`exampleLibraries` with pick indices 0: voice (60 s), outro (12 s,
startOffset 59), ambience (45 s, loop). -/
def exampleAssembledLayers : List AudioLayer :=
  [⟨"voice.mp3", "voice", 1, 1/2, 1, 60, false, 0⟩,
   ⟨"audio-libraries/structural/outro1.mp3", "structural-outro", 1, 1/2, 0, 12, false, 59⟩,
   ⟨"audio-libraries/ambience/beach.mp3", "ambience", 3/10, 1, 1, 45, true, 0⟩]

/-- The layer list `createLayers` produces from `shortVoiceProbe` /
`outroOnlyLibraries`: a half-second voice and an outro whose
`startOffset = 0.5 - 1.0 = -0.5` is negative. -/
def shortVoiceLayers : List AudioLayer :=
  [⟨"voice.mp3", "voice", 1, 1/2, 1, 1/2, false, 0⟩,
   ⟨"audio-libraries/structural/outro1.mp3", "structural-outro", 1, 1/2, 0, 12, false, -(1/2)⟩]

/-- Decidable equality for `Except`, needed to evaluate concrete
assembly results in witnesses. -/
instance {e a : Type} [DecidableEq e] [DecidableEq a] : DecidableEq (Except e a) :=
  fun x y =>
    match x, y with
    | Except.error u, Except.error v =>
      if h : u = v then isTrue (by rw [h]) else
        isFalse (by intro hh; injection hh; contradiction)
    | Except.error _, Except.ok _ => isFalse (by intro hh; exact Except.noConfusion hh)
    | Except.ok _, Except.error _ => isFalse (by intro hh; exact Except.noConfusion hh)
    | Except.ok u, Except.ok v =>
      if h : u = v then isTrue (by rw [h]) else
        isFalse (by intro hh; injection hh; contradiction)

/-- A probe oracle for the C4 witness: voice and outro probe fine, but
the selected ambience candidate (`audio-libraries/ambience/beach.mp3`)
cannot be probed. -/
def noAmbienceProbe : String → Option ℚ := fun path =>
  if path = "voice.mp3" then some 60
  else if path = "audio-libraries/structural/outro1.mp3" then some 12
  else none

/-! # Theorems -/

set_option allowUnsafeReducibility true

attribute [semireducible] Rat.mul Rat.add Rat.sub Rat.inv Rat.ofScientific

/-- C1 (counterexample).  At `dominantFrequency = 150` and role
`ambience` the planner's notch has `Q = (150/1500).toFixed(2) = 0.1`,
not the claimed `Q = 1500/150 = 10`: the produced chain is
`[highpass 90, equalizer 150 Q=0.1 g=-4, equalizer 5000 Q=1 g=-3]`, and
no notch with `Q = 10` occurs in it. -/
theorem c1_counterexample :
    (generateBackgroundEQ profile150 "ambience" "[bg0_volfade]").chain =
      [BgFilter.highpass 90, BgFilter.equalizerQ 150 (1/10) (-4),
       BgFilter.equalizerQ 5000 1 (-3)] ∧
    BgFilter.equalizerQ 150 10 (-4) ∉
      (generateBackgroundEQ profile150 "ambience" "[bg0_volfade]").chain := by
  constructor
  · decide
  · decide

/-- C1 (amended).  For every profile with dominant frequency strictly
between 100 Hz and 5000 Hz the chain is exactly a high-pass at 90 Hz, a
notch at the dominant frequency with gain −4 dB and quality factor
`Q = (dominantFrequency / 1500).toFixed(2)` (center divided by the fixed
1500 Hz reference bandwidth — wider band for higher center frequencies),
followed for ambience/music roles by the −3 dB cut at 5000 Hz. -/
theorem c1_amended (p : VocalProfile) (role label : String)
    (h1 : 100 < p.dominantFrequency) (h2 : p.dominantFrequency < 5000) :
    (generateBackgroundEQ p role label).chain =
      [BgFilter.highpass 90,
       BgFilter.equalizerQ p.dominantFrequency (toFixed2 (p.dominantFrequency / 1500)) (-4)] ++
      (if role = "ambience" ∨ role = "music" then
        [BgFilter.equalizerQ 5000 1 (-3)] else []) := by
  simp only [generateBackgroundEQ, calculateQFromBandwidth, if_pos (And.intro h1 h2)]
  norm_num

/-- Closed instance of `c1_amended` at the 150 Hz profile and role
`music`. -/
theorem c1_amended_witness :
    (generateBackgroundEQ profile150 "music" "[bg1_volfade]").chain =
      [BgFilter.highpass 90,
       BgFilter.equalizerQ profile150.dominantFrequency
         (toFixed2 (profile150.dominantFrequency / 1500)) (-4)] ++
      (if ("music" : String) = "ambience" ∨ ("music" : String) = "music" then
        [BgFilter.equalizerQ 5000 1 (-3)] else []) :=
  c1_amended profile150 "music" "[bg1_volfade]" (by decide) (by decide)

/-- C9.  The EQ planner is deterministic: equal profile, role and input
label always produce the identical chain — `generateBackgroundEQ` is a
pure function of its three arguments and consults no other state. -/
theorem c9_deterministic (p₁ p₂ : VocalProfile) (role₁ role₂ label₁ label₂ : String)
    (hp : p₁ = p₂) (hrole : role₁ = role₂) (hlabel : label₁ = label₂) :
    generateBackgroundEQ p₁ role₁ label₁ = generateBackgroundEQ p₂ role₂ label₂ := by
  rw [hp, hrole, hlabel]

/-- Closed instance of `c9_deterministic`. -/
theorem c9_deterministic_witness :
    generateBackgroundEQ profile150 "ambience" "[bg0_volfade]" =
      generateBackgroundEQ profile150 "ambience" "[bg0_volfade]" :=
  c9_deterministic profile150 profile150 "ambience" "ambience" "[bg0_volfade]"
    "[bg0_volfade]" rfl rfl rfl

/-- C10.  `mixLayers` rejects — before any filter graph is built — when
the layer list has no voice layer, or when its first voice layer has a
falsy file path. -/
theorem c10_mixLayers_requires_voice (cfg : MixerConfig) (layers : List AudioLayer)
    (prof : Option VocalProfile)
    (h : (∀ l ∈ layers, ¬ l.type = "voice") ∨
      ∃ v, layers.find? (fun l => l.type = "voice") = some v ∧ v.filePath = "") :
    mixLayers cfg layers prof = Except.error (PipelineError.otherFailure
      "Voice layer (primary input) is missing or has no file path.") := by
  unfold mixLayers
  rcases h with h | ⟨v, hv, hpath⟩
  · rw [List.find?_eq_none.mpr (fun x hx => by simpa using h x hx)]
  · rw [hv]
    simp [hpath]

/-- Closed instance of `c10_mixLayers_requires_voice`: an empty layer
list is rejected. -/
theorem c10_mixLayers_requires_voice_witness :
    mixLayers exampleConfig [] none = Except.error (PipelineError.otherFailure
      "Voice layer (primary input) is missing or has no file path.") :=
  c10_mixLayers_requires_voice exampleConfig [] none (Or.inl (by simp))

/-- C7.  Compiling a voice-only layer list (no background layers) yields
a graph whose only terminal bus is `out`, in which every statement reads
only previously produced buses (starting from the sole input pad `0:a`)
and writes a fresh bus name. -/
theorem c7_voice_only_graph (cfg : MixerConfig) (v : AudioLayer)
    (prof : Option VocalProfile) :
    terminalBuses (buildFilterComplex cfg v [] prof) = ["out"] ∧
    wellFormedFrom ["0:a"] (buildFilterComplex cfg v [] prof) = true := by
  constructor
  · rfl
  · rfl

/-- C6 (counterexample).  For voice 60 s + one ambience + one music with
ducking enabled the compiled graph has 9 buses, not the claimed 7: the
compiler also emits a named volume/fade bus per background layer before
its EQ bus. -/
theorem c6_counterexample :
    scenarioGraph.map (fun s => s.output) =
      ["processedVoice", "bg0_volfade", "bg0_volfade_eq", "bg1_volfade",
       "bg1_volfade_eq", "rawMixedBackgrounds", "mixedBackgrounds", "preMaster", "out"] ∧
    scenarioGraph.length = 9 ∧ ¬ scenarioGraph.length = 7 := by
  refine ⟨rfl, rfl, ?_⟩
  decide

/-- C6 (amended).  The scenario graph contains exactly 9 buses — 1 voice
bus, 2 background volume/fade buses, 2 EQ'd background buses, 1 combined
bus, 1 ducked bus, 1 pre-master bus, 1 terminal bus — and under the
renderer duration semantics the terminal bus's declared duration equals
the 60 s voice duration. -/
theorem c6_amended :
    scenarioGraph.map (fun s => s.output) =
      ["processedVoice", "bg0_volfade", "bg0_volfade_eq", "bg1_volfade",
       "bg1_volfade_eq", "rawMixedBackgrounds", "mixedBackgrounds", "preMaster", "out"] ∧
    terminalBuses scenarioGraph = ["out"] ∧
    busDuration scenarioInputDurations scenarioGraph "out" = some 60 := by
  refine ⟨rfl, rfl, ?_⟩
  decide

/-! ### Helper lemmas for layer assembly -/

/-- Inversion of a successful `Except` bind. -/
theorem except_bind_ok {ε α β : Type} {x : Except ε α} {f : α → Except ε β} {b : β}
    (h : (x >>= f) = Except.ok b) : ∃ a, x = Except.ok a ∧ f a = Except.ok b := by
  cases x with
  | error e => exact absurd h (by simp [Bind.bind, Except.bind])
  | ok a => exact ⟨a, rfl, h⟩

/-- A successful `_getAudioDuration` means the probe succeeded with that
value. -/
theorem getAudioDuration_ok {probe : String → Option ℚ} {p : String} {d : ℚ}
    (h : getAudioDuration probe p = Except.ok d) : probe p = some d := by
  unfold getAudioDuration at h
  cases hp : probe p <;> rw [hp] at h
  · exact absurd h (by simp)
  · simpa using h

/-- Shape of every layer a successful intro segment emits. -/
theorem introSegment_ok {probe : String → Option ℚ} {cfg : MixerConfig}
    {cand : Option String} {ls : List AudioLayer}
    (h : introSegment probe cfg cand = Except.ok ls) :
    ∀ l ∈ ls, l.type = "structural-intro" ∧ l.startOffset = 0 ∧
      l.fadeIn = 0 ∧ l.fadeOut = 1/2 ∧ probe l.filePath = some l.duration := by
  cases cand with
  | none =>
    simp only [introSegment] at h
    injection h with h
    subst h
    intro l hl
    exact absurd hl (List.not_mem_nil l)
  | some rel =>
    simp only [introSegment] at h
    obtain ⟨p, _, h⟩ := except_bind_ok h
    obtain ⟨d, hd, h⟩ := except_bind_ok h
    injection h with h
    subst h
    intro l hl
    rw [List.mem_singleton] at hl
    subst hl
    exact ⟨rfl, rfl, rfl, rfl, getAudioDuration_ok hd⟩

/-- Shape of every layer a successful outro segment emits, including
the crossfade start offset `voiceDuration > 0 ? voiceDuration - 1 : 0`. -/
theorem outroSegment_ok {probe : String → Option ℚ} {cfg : MixerConfig} {vd : ℚ}
    {cand : Option String} {ls : List AudioLayer}
    (h : outroSegment probe cfg vd cand = Except.ok ls) :
    ∀ l ∈ ls, l.type = "structural-outro" ∧
      l.startOffset = (if 0 < vd then vd - 1 else 0) ∧
      l.fadeIn = 1/2 ∧ l.fadeOut = 0 ∧ probe l.filePath = some l.duration := by
  cases cand with
  | none =>
    simp only [outroSegment] at h
    injection h with h
    subst h
    intro l hl
    exact absurd hl (List.not_mem_nil l)
  | some rel =>
    simp only [outroSegment] at h
    obtain ⟨p, _, h⟩ := except_bind_ok h
    obtain ⟨d, hd, h⟩ := except_bind_ok h
    injection h with h
    subst h
    intro l hl
    rw [List.mem_singleton] at hl
    subst hl
    exact ⟨rfl, rfl, rfl, rfl, getAudioDuration_ok hd⟩

/-- Shape of every layer a successful ambience segment emits. -/
theorem ambienceSegment_ok {probe : String → Option ℚ} {cfg : MixerConfig} {pick : ℕ}
    {cands : List String} {ls : List AudioLayer}
    (h : ambienceSegment probe cfg pick cands = Except.ok ls) :
    ∀ l ∈ ls, l.type = "ambience" ∧ l.startOffset = 0 ∧
      l.fadeIn = 1 ∧ l.fadeOut = 1 ∧ probe l.filePath = some l.duration := by
  unfold ambienceSegment at h
  split at h
  · injection h with h
    subst h
    intro l hl
    exact absurd hl (List.not_mem_nil l)
  · obtain ⟨p, _, h⟩ := except_bind_ok h
    obtain ⟨d, hd, h⟩ := except_bind_ok h
    injection h with h
    subst h
    intro l hl
    rw [List.mem_singleton] at hl
    subst hl
    exact ⟨rfl, rfl, rfl, rfl, getAudioDuration_ok hd⟩

/-- Shape of every layer a successful music segment emits. -/
theorem musicSegment_ok {probe : String → Option ℚ} {cfg : MixerConfig} {pick : ℕ}
    {cands : List String} {ls : List AudioLayer}
    (h : musicSegment probe cfg pick cands = Except.ok ls) :
    ∀ l ∈ ls, l.type = "music" ∧ l.startOffset = 0 ∧
      l.fadeIn = 2 ∧ l.fadeOut = 2 ∧ probe l.filePath = some l.duration := by
  unfold musicSegment at h
  split at h
  · injection h with h
    subst h
    intro l hl
    exact absurd hl (List.not_mem_nil l)
  · obtain ⟨p, _, h⟩ := except_bind_ok h
    obtain ⟨d, hd, h⟩ := except_bind_ok h
    injection h with h
    subst h
    intro l hl
    rw [List.mem_singleton] at hl
    subst hl
    exact ⟨rfl, rfl, rfl, rfl, getAudioDuration_ok hd⟩

/-- Shape of every layer a successful effect segment emits. -/
theorem effectSegment_ok {probe : String → Option ℚ} {cfg : MixerConfig} {pick : ℕ}
    {cands : List String} {ls : List AudioLayer}
    (h : effectSegment probe cfg pick cands = Except.ok ls) :
    ∀ l ∈ ls, l.type = "transmission-static" ∧ l.startOffset = 0 ∧
      l.fadeIn = 1/10 ∧ l.fadeOut = 1/2 ∧ probe l.filePath = some l.duration := by
  unfold effectSegment at h
  split at h
  · injection h with h
    subst h
    intro l hl
    exact absurd hl (List.not_mem_nil l)
  · obtain ⟨p, _, h⟩ := except_bind_ok h
    obtain ⟨d, hd, h⟩ := except_bind_ok h
    injection h with h
    subst h
    intro l hl
    rw [List.mem_singleton] at hl
    subst hl
    exact ⟨rfl, rfl, rfl, rfl, getAudioDuration_ok hd⟩

/-- Inversion of a successful `createLayers` run into its six segments. -/
theorem createLayers_ok {probe : String → Option ℚ} {cfg : MixerConfig} {libs : Libraries}
    {vp : String} {pickA pickM pickE : ℕ} {layers : List AudioLayer}
    (h : createLayers probe cfg libs (some vp) pickA pickM pickE = Except.ok layers) :
    ∃ vd intro outro amb mus fx,
      probe vp = some vd ∧
      introSegment probe cfg libs.structuralIntro = Except.ok intro ∧
      outroSegment probe cfg vd libs.structuralOutro = Except.ok outro ∧
      ambienceSegment probe cfg pickA libs.ambience = Except.ok amb ∧
      musicSegment probe cfg pickM libs.music = Except.ok mus ∧
      effectSegment probe cfg pickE libs.effects = Except.ok fx ∧
      layers = mkVoiceLayer cfg vp vd :: (intro ++ outro ++ amb ++ mus ++ fx) := by
  simp only [createLayers] at h
  obtain ⟨vd, hvd, h⟩ := except_bind_ok h
  obtain ⟨intro, hi, h⟩ := except_bind_ok h
  obtain ⟨outro, ho, h⟩ := except_bind_ok h
  obtain ⟨amb, ha, h⟩ := except_bind_ok h
  obtain ⟨mus, hm, h⟩ := except_bind_ok h
  obtain ⟨fx, hf, h⟩ := except_bind_ok h
  injection h with h
  exact ⟨vd, intro, outro, amb, mus, fx, getAudioDuration_ok hvd, hi, ho, ha, hm, hf, h.symm⟩

/-- When the probe fails on the voice file, `createLayers` aborts with
`sourceUnavailable`. -/
theorem createLayers_voice_unprobable {probe : String → Option ℚ} {cfg : MixerConfig}
    {libs : Libraries} {vp : String} {pickA pickM pickE : ℕ}
    (h : probe vp = none) :
    createLayers probe cfg libs (some vp) pickA pickM pickE =
      Except.error (PipelineError.sourceUnavailable vp) := by
  simp [createLayers, getAudioDuration, h, Bind.bind, Except.bind]

/-- Every layer of a successful assembly carries the successfully probed
duration of its own source. -/
theorem createLayers_probed {probe : String → Option ℚ} {cfg : MixerConfig}
    {libs : Libraries} {vp : String} {pickA pickM pickE : ℕ} {layers : List AudioLayer}
    (h : createLayers probe cfg libs (some vp) pickA pickM pickE = Except.ok layers) :
    ∀ l ∈ layers, probe l.filePath = some l.duration := by
  obtain ⟨vd, intro, outro, amb, mus, fx, hvd, hi, ho, ha, hm, hf, rfl⟩ := createLayers_ok h
  intro l hl
  rcases List.mem_cons.mp hl with rfl | hl
  · exact hvd
  rcases List.mem_append.mp hl with hl | hl
  rotate_left
  · exact (effectSegment_ok hf l hl).2.2.2.2
  rcases List.mem_append.mp hl with hl | hl
  rotate_left
  · exact (musicSegment_ok hm l hl).2.2.2.2
  rcases List.mem_append.mp hl with hl | hl
  rotate_left
  · exact (ambienceSegment_ok ha l hl).2.2.2.2
  rcases List.mem_append.mp hl with hl | hl
  · exact (introSegment_ok hi l hl).2.2.2.2
  · exact (outroSegment_ok ho l hl).2.2.2.2

/-- Structure-eta helper: rebuilding a layer with its own duration is
the identity. -/
theorem backfillDuration_probed {probe : String → Option ℚ} {l : AudioLayer}
    (h : probe l.filePath = some l.duration) : backfillDuration probe l = l := by
  unfold backfillDuration
  by_cases hd : l.duration = 0
  · rw [if_neg (by simpa using hd), h]
  · rw [if_pos hd]

/-- The duration-backfill loop leaves a fully probed layer list
unchanged. -/
theorem ensureDurations_probed {probe : String → Option ℚ} {layers : List AudioLayer}
    (h : ∀ l ∈ layers, probe l.filePath = some l.duration) :
    ensureDurations probe layers = layers := by
  unfold ensureDurations
  induction layers with
  | nil => rfl
  | cons a t ih =>
    rw [List.map_cons, backfillDuration_probed (h a (List.mem_cons_self a t)),
      ih (fun l hl => h l (List.mem_cons_of_mem a hl))]

/-- `Except` bind on a success just applies the continuation. -/
theorem bind_ok {e a b : Type} (x : a) (f : a → Except e b) :
    (Except.ok x >>= f) = f x := rfl

/-- `Except` bind on an error short-circuits. -/
theorem bind_err {e a b : Type} (err : e) (f : a → Except e b) :
    ((Except.error err : Except e a) >>= f) = Except.error err := rfl

/-- An unprobable structural-intro candidate aborts its segment with
`sourceUnavailable` of the resolved path. -/
theorem introSegment_unprobable {probe : String → Option ℚ} {cfg : MixerConfig}
    {rel p : String} (hres : resolveLibraryPath rel = Except.ok p)
    (hp : probe p = none) :
    introSegment probe cfg (some rel) =
      Except.error (PipelineError.sourceUnavailable p) := by
  simp only [introSegment, hres, bind_ok]
  simp [getAudioDuration, hp, bind_err]

/-- An unprobable structural-outro candidate aborts its segment with
`sourceUnavailable` of the resolved path. -/
theorem outroSegment_unprobable {probe : String → Option ℚ} {cfg : MixerConfig}
    {vd : ℚ} {rel p : String} (hres : resolveLibraryPath rel = Except.ok p)
    (hp : probe p = none) :
    outroSegment probe cfg vd (some rel) =
      Except.error (PipelineError.sourceUnavailable p) := by
  simp only [outroSegment, hres, bind_ok]
  simp [getAudioDuration, hp, bind_err]

/-- An unprobable selected ambience candidate aborts its segment with
`sourceUnavailable` of the resolved path. -/
theorem ambienceSegment_unprobable {probe : String → Option ℚ} {cfg : MixerConfig}
    {pick : ℕ} {cands : List String} {p : String}
    (hne : ¬ cands.length = 0)
    (hres : resolveLibraryPath (cands.getD (pick % cands.length) "") = Except.ok p)
    (hp : probe p = none) :
    ambienceSegment probe cfg pick cands =
      Except.error (PipelineError.sourceUnavailable p) := by
  unfold ambienceSegment
  rw [if_neg hne]
  simp only [hres, bind_ok]
  simp [getAudioDuration, hp, bind_err]

/-- An unprobable selected music candidate aborts its segment with
`sourceUnavailable` of the resolved path. -/
theorem musicSegment_unprobable {probe : String → Option ℚ} {cfg : MixerConfig}
    {pick : ℕ} {cands : List String} {p : String}
    (hne : ¬ cands.length = 0)
    (hres : resolveLibraryPath (cands.getD (pick % cands.length) "") = Except.ok p)
    (hp : probe p = none) :
    musicSegment probe cfg pick cands =
      Except.error (PipelineError.sourceUnavailable p) := by
  unfold musicSegment
  rw [if_neg hne]
  simp only [hres, bind_ok]
  simp [getAudioDuration, hp, bind_err]

/-- An unprobable selected transmission-effect candidate aborts its
segment with `sourceUnavailable` of the resolved path. -/
theorem effectSegment_unprobable {probe : String → Option ℚ} {cfg : MixerConfig}
    {pick : ℕ} {cands : List String} {p : String}
    (hne : ¬ cands.length = 0)
    (hres : resolveLibraryPath (cands.getD (pick % cands.length) "") = Except.ok p)
    (hp : probe p = none) :
    effectSegment probe cfg pick cands =
      Except.error (PipelineError.sourceUnavailable p) := by
  unfold effectSegment
  rw [if_neg hne]
  simp only [hres, bind_ok]
  simp [getAudioDuration, hp, bind_err]

/-- A failing segment anywhere in the sequential assembly chain aborts
`createLayers` with that segment's error, provided the earlier stages
succeeded. -/
theorem createLayers_error_of_segments {probe : String → Option ℚ}
    {cfg : MixerConfig} {libs : Libraries} {vp : String} {pickA pickM pickE : ℕ}
    {vd : ℚ} {err : PipelineError}
    (hvd : probe vp = some vd)
    (h : (do
      let intro ← introSegment probe cfg libs.structuralIntro
      let outro ← outroSegment probe cfg vd libs.structuralOutro
      let amb ← ambienceSegment probe cfg pickA libs.ambience
      let mus ← musicSegment probe cfg pickM libs.music
      let fx ← effectSegment probe cfg pickE libs.effects
      Except.ok (mkVoiceLayer cfg vp vd :: (intro ++ outro ++ amb ++ mus ++ fx))) =
      Except.error err) :
    createLayers probe cfg libs (some vp) pickA pickM pickE = Except.error err := by
  simp only [createLayers, getAudioDuration, hvd, bind_ok]
  exact h

/-- Role-wise shape of every layer of a successful assembly: fixed type,
start offset and fade constants per segment (the outro's offset depending
on the probed voice duration). -/
theorem createLayers_shape {probe : String → Option ℚ} {cfg : MixerConfig}
    {libs : Libraries} {vp : String} {pickA pickM pickE : ℕ} {vd : ℚ}
    {layers : List AudioLayer}
    (hvd : probe vp = some vd)
    (h : createLayers probe cfg libs (some vp) pickA pickM pickE = Except.ok layers) :
    ∀ l ∈ layers,
      (l.type = "voice" ∧ l.startOffset = 0 ∧ l.fadeIn = 1/2 ∧ l.fadeOut = 1) ∨
      (l.type = "structural-intro" ∧ l.startOffset = 0 ∧ l.fadeIn = 0 ∧ l.fadeOut = 1/2) ∨
      (l.type = "structural-outro" ∧ l.startOffset = (if 0 < vd then vd - 1 else 0) ∧
        l.fadeIn = 1/2 ∧ l.fadeOut = 0) ∨
      (l.type = "ambience" ∧ l.startOffset = 0 ∧ l.fadeIn = 1 ∧ l.fadeOut = 1) ∨
      (l.type = "music" ∧ l.startOffset = 0 ∧ l.fadeIn = 2 ∧ l.fadeOut = 2) ∨
      (l.type = "transmission-static" ∧ l.startOffset = 0 ∧ l.fadeIn = 1/10 ∧
        l.fadeOut = 1/2) := by
  obtain ⟨vd', intro, outro, amb, mus, fx, hvd', hi, ho, ha, hm, hf, rfl⟩ := createLayers_ok h
  have hvv : vd' = vd := by rw [hvd] at hvd'; exact (Option.some.inj hvd').symm
  subst hvv
  intro l hl
  rcases List.mem_cons.mp hl with rfl | hl
  · exact Or.inl ⟨rfl, rfl, rfl, rfl⟩
  rcases List.mem_append.mp hl with hl | hl
  rotate_left
  · have := effectSegment_ok hf l hl
    exact Or.inr (Or.inr (Or.inr (Or.inr (Or.inr ⟨this.1, this.2.1, this.2.2.1, this.2.2.2.1⟩))))
  rcases List.mem_append.mp hl with hl | hl
  rotate_left
  · have := musicSegment_ok hm l hl
    exact Or.inr (Or.inr (Or.inr (Or.inr (Or.inl ⟨this.1, this.2.1, this.2.2.1, this.2.2.2.1⟩))))
  rcases List.mem_append.mp hl with hl | hl
  rotate_left
  · have := ambienceSegment_ok ha l hl
    exact Or.inr (Or.inr (Or.inr (Or.inl ⟨this.1, this.2.1, this.2.2.1, this.2.2.2.1⟩)))
  rcases List.mem_append.mp hl with hl | hl
  · have := introSegment_ok hi l hl
    exact Or.inr (Or.inl ⟨this.1, this.2.1, this.2.2.1, this.2.2.2.1⟩)
  · have := outroSegment_ok ho l hl
    exact Or.inr (Or.inr (Or.inl ⟨this.1, this.2.1, this.2.2.1, this.2.2.2.1⟩))

/-- C4.  A probe failure on any used candidate source aborts assembly
with `sourceUnavailable` of that source: the voice file, the resolved
structural intro or outro candidate, and the selected ambience, music or
transmission-effect candidate (each conjunct assumes the stages the code
runs earlier succeeded, since assembly is sequential and the first
failing probe reports).  A successful assembly gives every layer —
before and after the mixer's duration-backfill pass — exactly the
successfully probed duration of its own source; in particular a
declared-available source of nonzero duration never yields a layer with
duration 0. -/
theorem c4_no_unprobed_layers (probe : String → Option ℚ) (cfg : MixerConfig)
    (libs : Libraries) (vp : String) (pickA pickM pickE : ℕ) :
    (probe vp = none →
      createLayers probe cfg libs (some vp) pickA pickM pickE =
        Except.error (PipelineError.sourceUnavailable vp)) ∧
    (∀ vd rel p, probe vp = some vd →
      libs.structuralIntro = some rel →
      resolveLibraryPath rel = Except.ok p → probe p = none →
      createLayers probe cfg libs (some vp) pickA pickM pickE =
        Except.error (PipelineError.sourceUnavailable p)) ∧
    (∀ vd intro rel p, probe vp = some vd →
      introSegment probe cfg libs.structuralIntro = Except.ok intro →
      libs.structuralOutro = some rel →
      resolveLibraryPath rel = Except.ok p → probe p = none →
      createLayers probe cfg libs (some vp) pickA pickM pickE =
        Except.error (PipelineError.sourceUnavailable p)) ∧
    (∀ vd intro outro p, probe vp = some vd →
      introSegment probe cfg libs.structuralIntro = Except.ok intro →
      outroSegment probe cfg vd libs.structuralOutro = Except.ok outro →
      ¬ libs.ambience.length = 0 →
      resolveLibraryPath (libs.ambience.getD (pickA % libs.ambience.length) "") =
        Except.ok p →
      probe p = none →
      createLayers probe cfg libs (some vp) pickA pickM pickE =
        Except.error (PipelineError.sourceUnavailable p)) ∧
    (∀ vd intro outro amb p, probe vp = some vd →
      introSegment probe cfg libs.structuralIntro = Except.ok intro →
      outroSegment probe cfg vd libs.structuralOutro = Except.ok outro →
      ambienceSegment probe cfg pickA libs.ambience = Except.ok amb →
      ¬ libs.music.length = 0 →
      resolveLibraryPath (libs.music.getD (pickM % libs.music.length) "") =
        Except.ok p →
      probe p = none →
      createLayers probe cfg libs (some vp) pickA pickM pickE =
        Except.error (PipelineError.sourceUnavailable p)) ∧
    (∀ vd intro outro amb mus p, probe vp = some vd →
      introSegment probe cfg libs.structuralIntro = Except.ok intro →
      outroSegment probe cfg vd libs.structuralOutro = Except.ok outro →
      ambienceSegment probe cfg pickA libs.ambience = Except.ok amb →
      musicSegment probe cfg pickM libs.music = Except.ok mus →
      ¬ libs.effects.length = 0 →
      resolveLibraryPath (libs.effects.getD (pickE % libs.effects.length) "") =
        Except.ok p →
      probe p = none →
      createLayers probe cfg libs (some vp) pickA pickM pickE =
        Except.error (PipelineError.sourceUnavailable p)) ∧
    (∀ layers, createLayers probe cfg libs (some vp) pickA pickM pickE = Except.ok layers →
      (∀ l ∈ layers, probe l.filePath = some l.duration) ∧
      (∀ l ∈ ensureDurations probe layers, probe l.filePath = some l.duration)) := by
  refine ⟨fun h => createLayers_voice_unprobable h, ?_, ?_, ?_, ?_, ?_, fun layers h => ?_⟩
  · intro vd rel p hvd hcand hres hp
    have hseg : introSegment probe cfg libs.structuralIntro =
        Except.error (PipelineError.sourceUnavailable p) := by
      rw [hcand]
      exact introSegment_unprobable hres hp
    apply createLayers_error_of_segments hvd
    simp only [hseg, bind_err]
  · intro vd intro rel p hvd hi hcand hres hp
    have hseg : outroSegment probe cfg vd libs.structuralOutro =
        Except.error (PipelineError.sourceUnavailable p) := by
      rw [hcand]
      exact outroSegment_unprobable hres hp
    apply createLayers_error_of_segments hvd
    simp only [hi, bind_ok, hseg, bind_err]
  · intro vd intro outro p hvd hi ho hne hres hp
    have hseg : ambienceSegment probe cfg pickA libs.ambience =
        Except.error (PipelineError.sourceUnavailable p) :=
      ambienceSegment_unprobable hne hres hp
    apply createLayers_error_of_segments hvd
    simp only [hi, ho, bind_ok, hseg, bind_err]
  · intro vd intro outro amb p hvd hi ho ha hne hres hp
    have hseg : musicSegment probe cfg pickM libs.music =
        Except.error (PipelineError.sourceUnavailable p) :=
      musicSegment_unprobable hne hres hp
    apply createLayers_error_of_segments hvd
    simp only [hi, ho, ha, bind_ok, hseg, bind_err]
  · intro vd intro outro amb mus p hvd hi ho ha hm hne hres hp
    have hseg : effectSegment probe cfg pickE libs.effects =
        Except.error (PipelineError.sourceUnavailable p) :=
      effectSegment_unprobable hne hres hp
    apply createLayers_error_of_segments hvd
    simp only [hi, ho, ha, hm, bind_ok, hseg, bind_err]
  · have hp := createLayers_probed h
    exact ⟨hp, by rw [ensureDurations_probed hp]; exact hp⟩

/-- Closed instance of `c4_no_unprobed_layers`: an unprobable voice file
aborts with `sourceUnavailable`; an unprobable selected ambience
candidate (voice and outro probing fine) aborts with `sourceUnavailable`
of the resolved candidate path; and the successful example assembly is
fully probed. -/
theorem c4_no_unprobed_layers_witness :
    exampleProbe "missing.mp3" = none ∧
    createLayers exampleProbe exampleConfig exampleLibraries (some "missing.mp3") 0 0 0 =
      Except.error (PipelineError.sourceUnavailable "missing.mp3") ∧
    noAmbienceProbe "audio-libraries/ambience/beach.mp3" = none ∧
    createLayers noAmbienceProbe exampleConfig exampleLibraries (some "voice.mp3") 0 0 0 =
      Except.error
        (PipelineError.sourceUnavailable "audio-libraries/ambience/beach.mp3") ∧
    createLayers exampleProbe exampleConfig exampleLibraries (some "voice.mp3") 0 0 0 =
      Except.ok exampleAssembledLayers ∧
    (∀ l ∈ exampleAssembledLayers, exampleProbe l.filePath = some l.duration) :=
  ⟨by decide,
   (c4_no_unprobed_layers exampleProbe exampleConfig exampleLibraries
      "missing.mp3" 0 0 0).1 (by decide),
   by decide,
   (c4_no_unprobed_layers noAmbienceProbe exampleConfig exampleLibraries
      "voice.mp3" 0 0 0).2.2.2.1 60 []
      [⟨"audio-libraries/structural/outro1.mp3", "structural-outro", 1, 1/2, 0, 12,
        false, 59⟩]
      "audio-libraries/ambience/beach.mp3"
      (by decide) (by decide) (by decide) (by decide) (by decide) (by decide),
   by decide,
   ((c4_no_unprobed_layers exampleProbe exampleConfig exampleLibraries
      "voice.mp3" 0 0 0).2.2.2.2.2.2 exampleAssembledLayers (by decide)).1⟩

/-- C8 (counterexample).  With a half-second voice file and an outro
candidate, assembly succeeds but emits an outro with
`startOffset = 0.5 - 1.0 = -0.5 < 0`, and a voice layer with
`fadeIn + fadeOut = 1.5 > 0.5 = duration > 0`. -/
theorem c8_counterexample :
    createLayers shortVoiceProbe exampleConfig outroOnlyLibraries (some "voice.mp3") 0 0 0 =
      Except.ok shortVoiceLayers ∧
    (∃ l ∈ shortVoiceLayers, l.startOffset < 0) ∧
    (∃ l ∈ shortVoiceLayers, 0 < l.duration ∧ l.duration < l.fadeIn + l.fadeOut) := by
  refine ⟨by decide, ?_, ?_⟩
  · decide
  · decide

/-- C8 (amended).  Every layer of a successful assembly except the
structural outro has `startOffset = 0`; the outro's offset is
`voiceDuration - 1` when the probed voice duration is positive (else 0),
so all offsets are nonnegative provided the voice lasts at least 1 s;
and each layer carries its role's fixed fade pair (voice 0.5/1, intro
0/0.5, outro 0.5/0, ambience 1/1, music 2/2, static 0.1/0.5), so
`fadeIn + fadeOut ≤ duration` holds exactly when the probed duration is
at least that fixed sum. -/
theorem c8_amended (probe : String → Option ℚ) (cfg : MixerConfig) (libs : Libraries)
    (vp : String) (pickA pickM pickE : ℕ) (vd : ℚ) (layers : List AudioLayer)
    (hvd : probe vp = some vd)
    (h : createLayers probe cfg libs (some vp) pickA pickM pickE = Except.ok layers) :
    (∀ l ∈ layers, ¬ l.type = "structural-outro" → l.startOffset = 0) ∧
    (∀ l ∈ layers, l.type = "structural-outro" →
      l.startOffset = if 0 < vd then vd - 1 else 0) ∧
    (1 ≤ vd → ∀ l ∈ layers, 0 ≤ l.startOffset) ∧
    (∀ l ∈ layers, (l.fadeIn, l.fadeOut) ∈
      ([(1/2, 1), (0, 1/2), (1/2, 0), (1, 1), (2, 2), (1/10, 1/2)] : List (ℚ × ℚ))) := by
  have hs := createLayers_shape hvd h
  refine ⟨?_, ?_, ?_, ?_⟩
  · intro l hl hne
    rcases hs l hl with ⟨_, h2, _⟩ | ⟨_, h2, _⟩ | ⟨h1, _⟩ | ⟨_, h2, _⟩ | ⟨_, h2, _⟩ | ⟨_, h2, _⟩
      <;> first
        | exact h2
        | exact absurd h1 hne
  · intro l hl hty
    rcases hs l hl with ⟨h1, _⟩ | ⟨h1, _⟩ | ⟨_, h2, _⟩ | ⟨h1, _⟩ | ⟨h1, _⟩ | ⟨h1, _⟩
      <;> first
        | exact h2
        | exact absurd hty (by rw [h1]; decide)
  · intro hvd1 l hl
    rcases hs l hl with ⟨_, h2, _⟩ | ⟨_, h2, _⟩ | ⟨_, h2, _⟩ | ⟨_, h2, _⟩ | ⟨_, h2, _⟩ | ⟨_, h2, _⟩
      <;> rw [h2]
    · rw [if_pos (by linarith)]
      linarith
  · intro l hl
    rcases hs l hl with ⟨_, _, h3, h4⟩ | ⟨_, _, h3, h4⟩ | ⟨_, _, h3, h4⟩ | ⟨_, _, h3, h4⟩ |
        ⟨_, _, h3, h4⟩ | ⟨_, _, h3, h4⟩
      <;> rw [h3, h4]
      <;> decide

/-- Closed instance of `c8_amended` at the example probe (voice 60 s):
all emitted start offsets are nonnegative. -/
theorem c8_amended_witness :
    exampleProbe "voice.mp3" = some 60 ∧
    createLayers exampleProbe exampleConfig exampleLibraries (some "voice.mp3") 0 0 0 =
      Except.ok exampleAssembledLayers ∧
    (∀ l ∈ exampleAssembledLayers, 0 ≤ l.startOffset) :=
  ⟨by decide, by decide,
   (c8_amended exampleProbe exampleConfig exampleLibraries "voice.mp3" 0 0 0 60
      exampleAssembledLayers (by decide) (by decide)).2.2.1 (by norm_num)⟩

/-- C5 (counterexample).  A decode failure of the voice source during
vocal analysis does not abort the request: `ContentAnalyzer.analyze`'s
catch-all converts it into the default analysis (default vocal profile
included) and `processTransmission` continues to a successfully compiled
graph. -/
theorem c5_counterexample :
    contentAnalyze exampleEnrich (Except.ok 60) (Except.ok "hello")
      (Except.error (PipelineError.decodeFailure "voice.mp3")) = getDefaultAnalysis ∧
    processTransmission exampleProbe exampleConfig emptyLibraries 0 0 0 exampleEnrich
      (Except.ok 60) (Except.ok "hello")
      (Except.error (PipelineError.decodeFailure "voice.mp3")) "voice.mp3" =
      Except.ok
        (buildFilterComplex exampleConfig (mkVoiceLayer exampleConfig "voice.mp3" 60) []
          (some getDefaultVocalProfile), getDefaultAnalysis) := by
  exact ⟨rfl, rfl⟩

/-- C5 (amended).  Every failure inside content analysis — a decode
failure of the voice source during spectral analysis included, but also
transcription or duration-probe failures — is absorbed by the analyzer's
catch-all, which returns the complete default analysis (neutral vocal
profile included); the request then proceeds: with a probeable nonzero
voice source and no background candidates it compiles a graph
successfully instead of surfacing the decode failure. -/
theorem c5_amended (enrich : ℚ → String → VocalProfile → Analysis)
    (durationResult : Except PipelineError ℚ)
    (transcriptResult : Except PipelineError String) (e : PipelineError)
    (probe : String → Option ℚ) (cfg : MixerConfig) (pickA pickM pickE : ℕ)
    (vp : String) (d : ℚ)
    (hprobe : probe vp = some d) (hvp : ¬ vp = "") :
    contentAnalyze enrich durationResult transcriptResult (Except.error e) =
      getDefaultAnalysis ∧
    processTransmission probe cfg emptyLibraries pickA pickM pickE enrich
      durationResult transcriptResult (Except.error e) vp =
      Except.ok
        (buildFilterComplex cfg (mkVoiceLayer cfg vp d) [] (some getDefaultVocalProfile),
         getDefaultAnalysis) := by
  have hca : contentAnalyze enrich durationResult transcriptResult (Except.error e) =
      getDefaultAnalysis := by
    unfold contentAnalyze
    cases durationResult with
    | error _ => rfl
    | ok dd =>
      cases transcriptResult with
      | error _ => rfl
      | ok t => rfl
  refine ⟨hca, ?_⟩
  have hcl : createLayers probe cfg emptyLibraries (some vp) pickA pickM pickE =
      Except.ok [mkVoiceLayer cfg vp d] := by
    simp [createLayers, getAudioDuration, hprobe, introSegment, outroSegment,
      ambienceSegment, musicSegment, effectSegment, emptyLibraries, Bind.bind, Except.bind]
  have hed : ensureDurations probe [mkVoiceLayer cfg vp d] = [mkVoiceLayer cfg vp d] :=
    ensureDurations_probed (by
      intro l hl
      rw [List.mem_singleton] at hl
      subst hl
      exact hprobe)
  have hml : mixLayers cfg [mkVoiceLayer cfg vp d] (some getDefaultVocalProfile) =
      Except.ok (buildFilterComplex cfg (mkVoiceLayer cfg vp d) []
        (some getDefaultVocalProfile)) := by
    simp [mixLayers, mkVoiceLayer, hvp]
  simp [processTransmission, hca, hcl, hed, getDefaultAnalysis, hml, Bind.bind, Except.bind]

/-- Closed instance of `c5_amended` at a decode failure with concrete
probe and configuration. -/
theorem c5_amended_witness :
    exampleProbe "voice.mp3" = some 60 ∧
    processTransmission exampleProbe exampleConfig emptyLibraries 0 0 0 exampleEnrich
      (Except.ok 60) (Except.ok "hello")
      (Except.error (PipelineError.decodeFailure "voice.mp3")) "voice.mp3" =
      Except.ok
        (buildFilterComplex exampleConfig (mkVoiceLayer exampleConfig "voice.mp3" 60) []
          (some getDefaultVocalProfile), getDefaultAnalysis) :=
  ⟨by decide,
   (c5_amended exampleEnrich (Except.ok 60) (Except.ok "hello")
      (PipelineError.decodeFailure "voice.mp3") exampleProbe exampleConfig 0 0 0
      "voice.mp3" 60 (by decide) (by decide)).2⟩

/-! ### Helper lemmas for the spectral analyzer -/

/-- `getD` of an all-zero list is zero at every index. -/
theorem getD_zero_of_all_zero {l : List ℚ} (h : ∀ x ∈ l, x = 0) (i : ℕ) :
    l.getD i 0 = 0 := by
  induction l generalizing i with
  | nil => cases i <;> rfl
  | cons a t ih =>
    cases i with
    | zero => exact h a (List.mem_cons_self a t)
    | succ n => exact ih (fun x hx => h x (List.mem_cons_of_mem a hx)) n

/-- Accumulating all-zero window magnitudes leaves the accumulator
unchanged. -/
theorem foldl_add_getD_zero {L : List (List ℚ)} (h : ∀ w ∈ L, ∀ x ∈ w, x = 0)
    (i : ℕ) (c : ℚ) : L.foldl (fun acc w => acc + w.getD i 0) c = c := by
  induction L generalizing c with
  | nil => rfl
  | cons w t ih =>
    rw [List.foldl_cons, getD_zero_of_all_zero (h w (List.mem_cons_self w t)) i, add_zero]
    exact ih (fun v hv => h v (List.mem_cons_of_mem w hv)) c

/-- Averaging all-zero window magnitudes yields the all-zero bin list. -/
theorem avgMagnitudes_silent {L : List (List ℚ)} (h : ∀ w ∈ L, ∀ x ∈ w, x = 0) :
    avgMagnitudes L = List.replicate totalBins 0 := by
  unfold avgMagnitudes
  rw [List.eq_replicate_iff]
  refine ⟨by rw [List.length_map, List.length_range], ?_⟩
  intro b hb
  rw [List.mem_map] at hb
  obtain ⟨i, _, rfl⟩ := hb
  rw [foldl_add_getD_zero h, zero_div]

/-- The dominant-bin fold keeps an accumulator no bin strictly beats. -/
theorem foldl_scan_const (g : ℕ → ℚ) (l : List ℕ) (acc : ℤ × ℚ)
    (h : ∀ i ∈ l, ¬ acc.2 < g i) :
    l.foldl (fun acc i => if acc.2 < g i then ((i : ℤ), g i) else acc) acc = acc := by
  induction l with
  | nil => rfl
  | cons a t ih =>
    rw [List.foldl_cons, if_neg (h a (List.mem_cons_self a t))]
    exact ih (fun i hi => h i (List.mem_cons_of_mem a hi))

/-- On the all-zero bin averages the scan stops at the first visited
bin, `minBin = 3`, with magnitude 0. -/
theorem dominantScan_silent :
    dominantScan (List.replicate totalBins 0) = (3, 0) := by
  have hg : ∀ i : ℕ, (List.replicate totalBins (0 : ℚ)).getD i 0 = 0 := fun i =>
    getD_zero_of_all_zero (fun x hx => List.eq_of_mem_replicate hx) i
  have hmin : minBin = 3 := by decide
  have hmax : maxBin = 372 := by decide
  unfold dominantScan
  rw [hmin, hmax]
  rw [show (372 + 1 - 3 : ℕ) = 369 + 1 from rfl]
  rw [List.range'_succ, List.foldl_cons]
  simp only [hg]
  rw [if_pos (by norm_num)]
  exact foldl_scan_const (fun _ => 0) _ (3, 0) (fun i _ => by norm_num)

/-- The band average of an all-zero magnitude list is zero. -/
theorem bandAverage_zero {l : List ℚ} (h : ∀ x ∈ l, x = 0) : bandAverage l = 0 := by
  unfold bandAverage
  split
  · rfl
  · rw [List.sum_eq_zero h, zero_div]

/-- Zipping a list with that many copies of a constant just pairs every
element with the constant. -/
theorem zip_map_const {α β : Type} (l : List α) (b : β) :
    l.zip (List.replicate l.length b) = l.map (fun x => (x, b)) := by
  induction l with
  | nil => rfl
  | cons a t ih => simp [List.replicate_succ, ih]

/-- On all-zero averages, `avgWithFreq` is the bin-frequency table with
zero magnitudes. -/
theorem avgWithFreq_silent :
    avgWithFreq (List.replicate totalBins 0) =
      (List.range totalBins).map (fun i => (binFrequency i, 0)) := by
  unfold avgWithFreq
  rw [List.enum_eq_zip_range, List.length_replicate]
  rw [show List.replicate totalBins (0 : ℚ) = List.replicate (List.range totalBins).length 0
    from by rw [List.length_range]]
  rw [zip_map_const, List.map_map]
  rfl

/-- A stable sort of all-tied elements (all magnitudes zero) is the
identity. -/
theorem insertionSort_ties {l : List (ℚ × ℚ)} (h : ∀ a ∈ l, a.2 = 0) :
    List.insertionSort magDescends l = l := by
  induction l with
  | nil => rfl
  | cons x xs ih =>
    rw [List.insertionSort]
    rw [ih (fun a ha => h a (List.mem_cons_of_mem x ha))]
    cases xs with
    | nil => rfl
    | cons y ys =>
      rw [List.orderedInsert,
        if_pos (show magDescends x y from by
          unfold magDescends
          rw [h x (List.mem_cons_self _ _),
            h y (List.mem_cons_of_mem x (List.mem_cons_self _ _))])]

set_option maxRecDepth 4000 in
/-- The silent-input peak list: the first five in-band bins (4–8), all
with magnitude zero. -/
theorem peakList_silent : peakList (List.replicate totalBins 0) =
    [(8613/100, 0), (10767/100, 0), (646/5, 0), (15073/100, 0), (17227/100, 0)] := by
  unfold peakList
  rw [avgWithFreq_silent, List.filter_map]
  rw [insertionSort_ties (by
    intro a ha
    rw [List.mem_map] at ha
    obtain ⟨i, _, rfl⟩ := ha
    rfl)]
  rw [← List.map_take, List.map_map]
  decide

/-- One band field of the silent profile is zero, for any band
predicate. -/
theorem band_zero_silent (pb : ℚ × ℚ → Bool) :
    toFixed4 (bandAverage
      ((((List.range totalBins).map (fun i => (binFrequency i, 0))).filter pb).map
        (fun q => q.2))) = 0 := by
  rw [bandAverage_zero (by
    intro x hx
    rw [List.mem_map] at hx
    obtain ⟨q, hq, rfl⟩ := hx
    have := List.mem_filter.mp hq
    rw [List.mem_map] at this
    obtain ⟨⟨i, _, rfl⟩, _⟩ := this
    rfl)]
  decide

/-- The profile of all-zero bin averages is exactly `silentProfile`. -/
theorem profileFromAvg_silent :
    profileFromAvg (List.replicate totalBins 0) = silentProfile := by
  unfold profileFromAvg silentProfile
  rw [dominantScan_silent, peakList_silent, avgWithFreq_silent]
  simp only [VocalProfile.mk.injEq]
  exact ⟨by decide, band_zero_silent _, band_zero_silent _, band_zero_silent _, trivial⟩

/-- Every sample inside a produced window comes from the input stream. -/
theorem mem_of_mem_chunkFrames :
    ∀ {fuel : ℕ} {s w : List ℤ}, w ∈ chunkFrames fuel s → ∀ x ∈ w, x ∈ s := by
  intro fuel
  induction fuel with
  | zero =>
    intro s w hw
    simp [chunkFrames] at hw
  | succ n ih =>
    intro s w hw x hx
    cases s with
    | nil => simp [chunkFrames] at hw
    | cons a t =>
      rw [chunkFrames] at hw
      rcases List.mem_cons.mp hw with rfl | hw
      · exact List.mem_of_mem_take hx
      · exact List.mem_of_mem_drop (ih hw x hx)

/-- A non-empty stream yields at least one window. -/
theorem splitWindows_ne_nil {s : List ℤ} (h : ¬ s = []) : ¬ splitWindows s = [] := by
  unfold splitWindows
  cases s with
  | nil => exact absurd rfl h
  | cons a t =>
    rw [List.length_cons, chunkFrames]
    exact List.cons_ne_nil _ _

/-- The analyzer's silent-input behaviour, for any magnitude-spectrum
routine that (like every correct DFT) maps all-zero windows to all-zero
spectra: the profile is `silentProfile`, not the neutral default. -/
theorem analyzeSamples_silent (fftMags : List ℚ → List ℚ) (samples : List ℤ)
    (hne : ¬ samples = []) (hz : ∀ x ∈ samples, x = 0)
    (hdft : ∀ w : List ℚ, (∀ x ∈ w, x = 0) → fftMags w = List.replicate w.length 0) :
    analyzeSamples fftMags samples = silentProfile := by
  unfold analyzeSamples calculateFinalProfile
  rw [if_neg (by
    rw [List.map_eq_nil_iff]
    exact splitWindows_ne_nil hne)]
  rw [avgMagnitudes_silent (by
    intro mw hmw
    rw [List.mem_map] at hmw
    obtain ⟨w, hw, rfl⟩ := hmw
    intro x hx
    rw [hdft (w.map toFloatSample) (by
      intro y hy
      rw [List.mem_map] at hy
      obtain ⟨s, hs, rfl⟩ := hy
      have hs0 : s = 0 := hz s (mem_of_mem_chunkFrames hw s hs)
      rw [hs0]
      unfold toFloatSample
      norm_num)] at hx
    exact List.eq_of_mem_replicate (List.mem_of_mem_take hx))]
  exact profileFromAvg_silent

/-- C2 (counterexample).  The one-sample silent stream: the analyzer
reports dominant frequency 64.6 Hz (bin 3) and five zero-magnitude
peaks, refuting `dominantFrequency = 0` with empty `peakFrequencies`. -/
theorem c2_counterexample :
    analyzeSamples zeroSpectrum [0] = silentProfile ∧
    ¬ ((analyzeSamples zeroSpectrum [0]).dominantFrequency = 0 ∧
       (analyzeSamples zeroSpectrum [0]).peakFrequencies = []) := by
  have h := analyzeSamples_silent zeroSpectrum [0] (by decide) (by decide)
    (fun w _ => rfl)
  refine ⟨h, ?_⟩
  rw [h]
  decide

/-- C2 (amended).  For every all-silent input stream of length ≥ 1
sample (and any correct DFT routine) the analyzer returns the fixed
profile `silentProfile`: dominant frequency `64.6` Hz (the lowest
scanned bin, 3), zero band energies, and five zero-magnitude peak
entries at bins 4–8 (86.13, 107.67, 129.2, 150.73, 172.27 Hz) — not
`dominantFrequency = 0` with empty peaks. -/
theorem c2_amended (fftMags : List ℚ → List ℚ) (samples : List ℤ)
    (hlen : 1 ≤ samples.length) (hz : ∀ x ∈ samples, x = 0)
    (hdft : ∀ w : List ℚ, (∀ x ∈ w, x = 0) → fftMags w = List.replicate w.length 0) :
    analyzeSamples fftMags samples = silentProfile :=
  analyzeSamples_silent fftMags samples
    (by
      intro hnil
      rw [hnil] at hlen
      exact absurd hlen (by decide))
    hz hdft

/-- Closed instance of `c2_amended` on the one-sample silent stream. -/
theorem c2_amended_witness :
    1 ≤ ([0] : List ℤ).length ∧ analyzeSamples zeroSpectrum [0] = silentProfile :=
  ⟨by decide, c2_amended zeroSpectrum [0] (by decide) (by decide) (fun w _ => rfl)⟩

/-- `toFixed(2)` is monotone. -/
theorem toFixed2_mono {x y : ℚ} (h : x ≤ y) : toFixed2 x ≤ toFixed2 y := by
  unfold toFixed2
  have hf : (⌊x * 100 + 1/2⌋ : ℤ) ≤ ⌊y * 100 + 1/2⌋ := Int.floor_le_floor (by linarith)
  have hf' : ((⌊x * 100 + 1/2⌋ : ℤ) : ℚ) ≤ ((⌊y * 100 + 1/2⌋ : ℤ) : ℚ) := by
    exact_mod_cast hf
  linarith

/-- `toFixed(4)` is monotone. -/
theorem toFixed4_mono {x y : ℚ} (h : x ≤ y) : toFixed4 x ≤ toFixed4 y := by
  unfold toFixed4
  have hf : (⌊x * 10000 + 1/2⌋ : ℤ) ≤ ⌊y * 10000 + 1/2⌋ := Int.floor_le_floor (by linarith)
  have hf' : ((⌊x * 10000 + 1/2⌋ : ℤ) : ℚ) ≤ ((⌊y * 10000 + 1/2⌋ : ℤ) : ℚ) := by
    exact_mod_cast hf
  linarith

/-- The reported peak list never exceeds 5 entries. -/
theorem peakList_length_le (avg : List ℚ) : (peakList avg).length ≤ 5 := by
  unfold peakList
  rw [List.length_map, List.length_take]
  exact min_le_left _ _

/-- The reported peak list is ordered descending by (reported)
magnitude. -/
theorem peakList_sorted (avg : List ℚ) :
    (peakList avg).Pairwise (fun a b : ℚ × ℚ => b.2 ≤ a.2) := by
  unfold peakList
  exact List.Pairwise.map _ (fun a b hab => toFixed4_mono hab)
    (List.Pairwise.sublist (List.take_sublist 5 _)
      (List.sorted_insertionSort magDescends _))

/-- Every reported peak frequency lies in the `[80, 8000]` band. -/
theorem peakList_mem_band (avg : List ℚ) :
    ∀ q ∈ peakList avg, 80 ≤ q.1 ∧ q.1 ≤ 8000 := by
  unfold peakList
  intro q hq
  rw [List.mem_map] at hq
  obtain ⟨p, hp, rfl⟩ := hq
  have hp2 := (List.mem_insertionSort magDescends).mp (List.mem_of_mem_take hp)
  have hb := of_decide_eq_true (List.mem_filter.mp hp2).2
  show 80 ≤ toFixed2 p.1 ∧ toFixed2 p.1 ≤ 8000
  constructor
  · calc (80 : ℚ) = toFixed2 80 := by decide
      _ ≤ toFixed2 p.1 := toFixed2_mono hb.1
  · calc toFixed2 p.1 ≤ toFixed2 8000 := toFixed2_mono hb.2
      _ = 8000 := by decide

/-- The dominant-bin fold either keeps the sentinel `-1` or lands on a
visited bin index. -/
theorem foldl_scan_bounds (g : ℕ → ℚ) (l : List ℕ) (lo hi : ℕ) (acc : ℤ × ℚ)
    (hacc : acc.1 = -1 ∨ ((lo : ℤ) ≤ acc.1 ∧ acc.1 ≤ hi))
    (hl : ∀ i ∈ l, lo ≤ i ∧ i ≤ hi) :
    (l.foldl (fun acc i => if acc.2 < g i then ((i : ℤ), g i) else acc) acc).1 = -1 ∨
      ((lo : ℤ) ≤
          (l.foldl (fun acc i => if acc.2 < g i then ((i : ℤ), g i) else acc) acc).1 ∧
        (l.foldl (fun acc i => if acc.2 < g i then ((i : ℤ), g i) else acc) acc).1 ≤ hi) := by
  induction l generalizing acc with
  | nil => exact hacc
  | cons a t ih =>
    rw [List.foldl_cons]
    apply ih
    · by_cases hc : acc.2 < g a
      · rw [if_pos hc]
        right
        have := hl a (List.mem_cons_self a t)
        refine ⟨?_, ?_⟩
        · show (lo : ℤ) ≤ (a : ℤ)
          exact_mod_cast this.1
        · show (a : ℤ) ≤ (hi : ℤ)
          exact_mod_cast this.2
      · rw [if_neg hc]
        exact hacc
    · exact fun i hi => hl i (List.mem_cons_of_mem a hi)

/-- The dominant bin is either the sentinel or in `[minBin, maxBin]
 = [3, 372]`. -/
theorem dominantScan_bounds (avg : List ℚ) :
    (dominantScan avg).1 = -1 ∨
      ((3 : ℤ) ≤ (dominantScan avg).1 ∧ (dominantScan avg).1 ≤ 372) := by
  unfold dominantScan
  have hmin : minBin = 3 := by decide
  have hmax : maxBin = 372 := by decide
  rw [hmin, hmax]
  apply foldl_scan_bounds (fun i => avg.getD i 0) _ 3 372 (-1, -1) (Or.inl rfl)
  intro i hi
  rw [List.mem_range'] at hi
  obtain ⟨j, hj, rfl⟩ := hi
  omega

/-- The reported dominant frequency is `0` or the (rounded) frequency of
a bin between 3 and 372, i.e. between `64.6` and `8010.35` Hz. -/
theorem profileFromAvg_dominant (avg : List ℚ) :
    (profileFromAvg avg).dominantFrequency = 0 ∨
      (323/5 ≤ (profileFromAvg avg).dominantFrequency ∧
        (profileFromAvg avg).dominantFrequency ≤ 160207/20) := by
  have hrw : (profileFromAvg avg).dominantFrequency =
      toFixed2 (if (dominantScan avg).1 ≠ -1
        then ((dominantScan avg).1 : ℚ) * binWidth else 0) := rfl
  rw [hrw]
  rcases dominantScan_bounds avg with h | ⟨h1, h2⟩
  · left
    rw [if_neg (by rw [h]; exact fun hne => hne rfl)]
    decide
  · right
    have hne : (dominantScan avg).1 ≠ -1 := by
      intro he
      rw [he] at h1
      norm_num at h1
    rw [if_pos hne]
    have hbw : (0 : ℚ) ≤ binWidth := by decide
    refine ⟨?_, ?_⟩
    · have hc : ((3 : ℚ)) ≤ ((dominantScan avg).1 : ℚ) := by exact_mod_cast h1
      have hm : (3 : ℚ) * binWidth ≤ ((dominantScan avg).1 : ℚ) * binWidth :=
        mul_le_mul_of_nonneg_right hc hbw
      calc (323/5 : ℚ) = toFixed2 ((3 : ℚ) * binWidth) := by decide
        _ ≤ toFixed2 (((dominantScan avg).1 : ℚ) * binWidth) := toFixed2_mono hm
    · have hc : ((dominantScan avg).1 : ℚ) ≤ (372 : ℚ) := by exact_mod_cast h2
      have hm : ((dominantScan avg).1 : ℚ) * binWidth ≤ (372 : ℚ) * binWidth :=
        mul_le_mul_of_nonneg_right hc hbw
      calc toFixed2 (((dominantScan avg).1 : ℚ) * binWidth)
          ≤ toFixed2 ((372 : ℚ) * binWidth) := toFixed2_mono hm
        _ = 160207/20 := by decide

/-- C3 (counterexample).  On the one-sample silent stream the dominant
frequency is `64.6 ≠ 0` yet below the 80 Hz band edge, refuting the
claim that every nonzero reported dominant frequency lies in
`[80, 8000]`. -/
theorem c3_counterexample :
    (analyzeSamples zeroSpectrum [0]).dominantFrequency ≠ 0 ∧
    (analyzeSamples zeroSpectrum [0]).dominantFrequency < 80 := by
  have h := analyzeSamples_silent zeroSpectrum [0] (by decide) (by decide)
    (fun w _ => rfl)
  rw [h]
  exact ⟨by decide, by decide⟩

set_option maxRecDepth 4000 in
/-- C3 (amended).  For every input stream (and any magnitude routine):
`peakFrequencies` has at most 5 entries, is ordered descending by
magnitude, and every entry's frequency lies in `[80, 8000]`; the
dominant frequency, however, is only guaranteed to be `0` or to lie in
the bin-quantized band `[64.6, 8010.35]` Hz (bins
`floor(80/binWidth) = 3` to `ceil(8000/binWidth) = 372`), which exceeds
`[80, 8000]` at both ends. -/
theorem c3_amended (fftMags : List ℚ → List ℚ) (samples : List ℤ) :
    ((analyzeSamples fftMags samples).peakFrequencies.length ≤ 5) ∧
    ((analyzeSamples fftMags samples).peakFrequencies.Pairwise
      (fun a b : ℚ × ℚ => b.2 ≤ a.2)) ∧
    (∀ q ∈ (analyzeSamples fftMags samples).peakFrequencies,
      80 ≤ q.1 ∧ q.1 ≤ 8000) ∧
    ((analyzeSamples fftMags samples).dominantFrequency = 0 ∨
      (323/5 ≤ (analyzeSamples fftMags samples).dominantFrequency ∧
        (analyzeSamples fftMags samples).dominantFrequency ≤ 160207/20)) := by
  unfold analyzeSamples calculateFinalProfile
  split
  · exact ⟨by decide, List.Pairwise.nil,
      fun q hq => absurd hq (List.not_mem_nil q), Or.inl rfl⟩
  · exact ⟨peakList_length_le _, peakList_sorted _, peakList_mem_band _,
      profileFromAvg_dominant _⟩
